import Mathlib

/-!
Verification of the display-aware screenshot pipeline
(src/examples/display_info.rs of the snap_scale repository).

Shallow embedding conventions:
* Rust f32 values are modelled by the type F: a finite value carried
  exactly as a rational, or one of the IEEE-754 special values NaN, plus
  infinity, minus infinity.  Arithmetic on finite values is modelled
  exactly (rounding of finite f32 arithmetic is not modelled); the special
  values follow the IEEE-754 rules that Rust implements.  Source literals
  such as 1.56 and 100.0 are modelled by the exact rationals they denote.
* The Rust numeric cast operator from f32 to u32 and to i32 is modelled by
  castU32 and castI32: rounding toward zero, saturating at the bounds of
  the target type, mapping NaN to zero, exactly as documented for Rust.
* The external capture primitive Screen.capture_area from the screenshots
  crate is modelled as a function field of Screen that may fail, returning
  Option Image; the save call of the image crate is modelled as a String
  oracle.  The library functions themselves are external collaborators.
* Fields and functions keep the source names.  determine_actual_scaling is
  the cfg(not(test)) variant, which is the one the spec describes; the
  cfg(test) variant returns the constant 1.56 unconditionally.
-/

namespace SnapScale

/-- Model of a Rust f32 value: an exact finite rational or a special value. -/
inductive F where
  | fin (q : ℚ)
  | nan
  | inf
  | ninf
deriving DecidableEq

/-- IEEE-754 multiplication on the f32 model (exact on finite values). -/
def fmul : F → F → F
  | F.nan, _ => F.nan
  | _, F.nan => F.nan
  | F.fin a, F.fin b => F.fin (a * b)
  | F.fin a, F.inf => if 0 < a then F.inf else if a < 0 then F.ninf else F.nan
  | F.fin a, F.ninf => if 0 < a then F.ninf else if a < 0 then F.inf else F.nan
  | F.inf, F.fin b => if 0 < b then F.inf else if b < 0 then F.ninf else F.nan
  | F.ninf, F.fin b => if 0 < b then F.ninf else if b < 0 then F.inf else F.nan
  | F.inf, F.inf => F.inf
  | F.inf, F.ninf => F.ninf
  | F.ninf, F.inf => F.ninf
  | F.ninf, F.ninf => F.inf

/-- IEEE-754 division on the f32 model (exact on finite values; division of
a finite value by positive zero follows the sign of the numerator). -/
def fdiv : F → F → F
  | F.nan, _ => F.nan
  | _, F.nan => F.nan
  | F.fin a, F.fin b =>
      if b = 0 then (if 0 < a then F.inf else if a < 0 then F.ninf else F.nan)
      else F.fin (a / b)
  | F.fin _, F.inf => F.fin 0
  | F.fin _, F.ninf => F.fin 0
  | F.inf, F.fin b => if 0 ≤ b then F.inf else F.ninf
  | F.ninf, F.fin b => if 0 ≤ b then F.ninf else F.inf
  | F.inf, F.inf => F.nan
  | F.inf, F.ninf => F.nan
  | F.ninf, F.inf => F.nan
  | F.ninf, F.ninf => F.nan

/-- Truncation toward zero of a rational, the rounding rule of a Rust
float-to-integer cast. -/
def ratTruncToward0 (q : ℚ) : ℤ := if 0 ≤ q then ⌊q⌋ else ⌈q⌉

/-- The Rust cast expression from f32 to u32: rounds toward zero, saturates
at the bounds of u32, and maps NaN to 0. -/
def castU32 : F → ℕ
  | F.fin q => if q ≤ 0 then 0 else min (⌊q⌋.toNat) 4294967295
  | F.inf => 4294967295
  | F.ninf => 0
  | F.nan => 0

/-- The Rust cast expression from f32 to i32: rounds toward zero, saturates
at the bounds of i32, and maps NaN to 0. -/
def castI32 : F → ℤ
  | F.fin q => max (-2147483648) (min (ratTruncToward0 q) 2147483647)
  | F.inf => 2147483647
  | F.ninf => -2147483648
  | F.nan => 0

/-- Whether an f32 value is a positive number (a positive finite value or
plus infinity; NaN is not a number). -/
def F.isPos : F → Bool
  | F.fin q => decide (0 < q)
  | F.inf => true
  | F.ninf => false
  | F.nan => false

/-- A raw RGBA buffer returned by the capture primitive; only its pixel
dimensions matter to this core. -/
structure Image where
  width : ℕ
  height : ℕ
deriving DecidableEq

/-- The display_info record of the screenshots crate, with the fields the
source reads.  rotation is an f32 in the crate. -/
structure DisplayInfo where
  id : ℕ
  x : ℤ
  y : ℤ
  width : ℕ
  height : ℕ
  rotation : F
  scale_factor : F
  is_primary : Bool
deriving DecidableEq

/-- A Screen of the screenshots crate: its display_info together with its
capture primitive, modelled as a function that may fail. -/
structure Screen where
  display_info : DisplayInfo
  capture_area : ℤ → ℤ → ℕ → ℕ → Option Image

/-- The probe reference size: let test_size = 100 in
determine_actual_scaling. -/
def test_size : ℕ := 100

/-- ScalingConfig::determine_actual_scaling (the cfg(not(test)) variant):
probe-capture test_size at the origin; on success return
actual_width / (test_size * scale_factor); on failure return the
fallback constant 1.56. -/
def determine_actual_scaling (screen : Screen) : F :=
  match screen.capture_area 0 0 test_size test_size with
  | some test_image =>
      fdiv (F.fin (test_image.width : ℚ))
        (fmul (F.fin (test_size : ℚ)) screen.display_info.scale_factor)
  | none => F.fin (39 / 25)

/-- The scaling configuration for display-aware captures. -/
structure ScalingConfig where
  dpi_scale : F
  total_scale : F

/-- ScalingConfig::new: dpi_scale is the reported scale factor; total_scale
is dpi_scale times the measured extra scale. -/
def ScalingConfig.new (screen : Screen) : ScalingConfig :=
  let dpi_scale := screen.display_info.scale_factor
  let extra_scale := determine_actual_scaling screen
  { dpi_scale := dpi_scale, total_scale := fmul dpi_scale extra_scale }

/-- ScalingConfig::scale_dimension: (logical_size as f32 * total_scale) as u32. -/
def ScalingConfig.scale_dimension (self : ScalingConfig) (logical_size : ℕ) : ℕ :=
  castU32 (fmul (F.fin (logical_size : ℚ)) self.total_scale)

/-- ScalingConfig::scale_coordinate: (logical_coord as f32 * total_scale) as i32. -/
def ScalingConfig.scale_coordinate (self : ScalingConfig) (logical_coord : ℤ) : ℤ :=
  castI32 (fmul (F.fin (logical_coord : ℚ)) self.total_scale)

/-- DisplayAwareCapture: a screen together with its scaling configuration. -/
structure DisplayAwareCapture where
  screen : Screen
  scaling : ScalingConfig

/-- DisplayAwareCapture::new. -/
def DisplayAwareCapture.new (screen : Screen) : DisplayAwareCapture :=
  { screen := screen, scaling := ScalingConfig.new screen }

/-- DisplayAwareCapture::capture_scaled_area: scale the logical rectangle
with scale_coordinate and scale_dimension and forward it to the capture
primitive, returning its result unchanged. -/
def DisplayAwareCapture.capture_scaled_area (self : DisplayAwareCapture)
    (logical_x logical_y : ℤ) (logical_width logical_height : ℕ) : Option Image :=
  let physical_x := self.scaling.scale_coordinate logical_x
  let physical_y := self.scaling.scale_coordinate logical_y
  let physical_width := self.scaling.scale_dimension logical_width
  let physical_height := self.scaling.scale_dimension logical_height
  self.screen.capture_area physical_x physical_y physical_width physical_height

/-- Rust Display formatting of the f32 rotation field, as used in the
filename format string.  An integral value prints with no fractional part,
matching Rust; the remaining cases are not reached by integral rotations. -/
def fmtF32 : F → String
  | F.fin q => if q.den = 1 then toString q.num else toString q
  | F.nan => "NaN"
  | F.inf => "inf"
  | F.ninf => "-inf"

/-- The filename computed by DisplayAwareCapture::save_screenshot:
format("{}/{}_{}x{}_dpi{}_scale{}_rot{}.png", target_dir, prefix,
logical_size, logical_size, (scale_factor * 100.0) as u32,
(total_scale * 100.0) as u32, rotation). -/
def DisplayAwareCapture.screenshot_filename (self : DisplayAwareCapture)
    (prefx : String) (logical_size : ℕ) (target_dir : String) : String :=
  target_dir ++ "/" ++ prefx ++ "_" ++ toString logical_size ++ "x" ++
    toString logical_size ++ "_dpi" ++
    toString (castU32 (fmul self.screen.display_info.scale_factor (F.fin 100))) ++
    "_scale" ++ toString (castU32 (fmul self.scaling.total_scale (F.fin 100))) ++
    "_rot" ++ fmtF32 self.screen.display_info.rotation ++ ".png"

/-- DisplayAwareCapture::save_screenshot: build the filename, hand it to the
external save collaborator, and return the filename on success. -/
def DisplayAwareCapture.save_screenshot (self : DisplayAwareCapture)
    (save : String → Option Unit) (prefx : String) (logical_size : ℕ)
    (target_dir : String) : Option String :=
  let filename := self.screenshot_filename prefx logical_size target_dir
  match save filename with
  | some _ => some filename
  | none => none

/-- A baseline display_info record used by the concrete test displays. -/
def base_info : DisplayInfo :=
  { id := 0, x := 0, y := 0, width := 1920, height := 1080,
    rotation := F.fin 0, scale_factor := F.fin 1, is_primary := true }

/-- A capture oracle that succeeds exactly on the rectangle (0, 0, 200, 200),
which is the probe rectangle the spec predicts for nominal scale 2, and fails
on every other request, in particular on (0, 0, 100, 100). -/
def screen1 : Screen :=
  { display_info := { base_info with scale_factor := F.fin 2 },
    capture_area := fun x y w h =>
      if x = 0 ∧ y = 0 ∧ w = 200 ∧ h = 200 then some ⟨300, 300⟩ else none }

/-- A screen whose probe capture succeeds with a 130 pixel wide buffer. -/
def screen_probe : Screen :=
  { display_info := { base_info with scale_factor := F.fin 2 },
    capture_area := fun _ _ _ _ => some ⟨130, 130⟩ }

/-- A capture oracle that echoes the requested rectangle dimensions back. -/
def echo_cap : ℤ → ℤ → ℕ → ℕ → Option Image := fun _ _ w h => some ⟨w, h⟩

/-- A display rotated by 90 degrees with total scale 2 and an echo oracle. -/
def capture2 : DisplayAwareCapture :=
  { screen := { display_info := { base_info with rotation := F.fin 90, scale_factor := F.fin 2 },
                capture_area := echo_cap },
    scaling := { dpi_scale := F.fin 2, total_scale := F.fin 2 } }

/-- A display with total scale 1/2 whose capture oracle accepts every
rectangle, including zero-sized ones. -/
def capture3 : DisplayAwareCapture :=
  { screen := { display_info := base_info, capture_area := fun _ _ _ _ => some ⟨7, 7⟩ },
    scaling := { dpi_scale := F.fin 1, total_scale := F.fin (1 / 2) } }

/-- A screen whose capture primitive always fails. -/
def screen_fail : Screen :=
  { display_info := base_info, capture_area := fun _ _ _ _ => none }

/-- A screen whose probe capture returns a degenerate zero-width buffer. -/
def screen5 : Screen :=
  { display_info := base_info, capture_area := fun _ _ _ _ => some ⟨0, 54⟩ }

/-- A scaling configuration with total scale 3/2. -/
def cfg6 : ScalingConfig := { dpi_scale := F.fin (3 / 2), total_scale := F.fin (3 / 2) }

/-- The display of concrete scenario 5: nominal scale 1.25, total scale 1.95,
rotation 90. -/
def capture8 : DisplayAwareCapture :=
  { screen := { display_info := { base_info with rotation := F.fin 90, scale_factor := F.fin (5 / 4) },
                capture_area := fun _ _ _ _ => none },
    scaling := { dpi_scale := F.fin (5 / 4), total_scale := F.fin (39 / 20) } }

/-- As capture8 but with nominal scale 1.251 instead of 1.25. -/
def capture9b : DisplayAwareCapture :=
  { screen := { display_info := { base_info with rotation := F.fin 90, scale_factor := F.fin (1251 / 1000) },
                capture_area := fun _ _ _ _ => none },
    scaling := { dpi_scale := F.fin (1251 / 1000), total_scale := F.fin (39 / 20) } }

/-- A scaling configuration holding NaN, as a degenerate calibration could
produce. -/
def cfg10 : ScalingConfig := { dpi_scale := F.nan, total_scale := F.nan }

/-- Every u32 cast result is within the u32 range. -/
theorem castU32_le (v : F) : castU32 v ≤ 4294967295 := by
  cases v with
  | fin q =>
      show (if q ≤ 0 then 0 else min (⌊q⌋.toNat) 4294967295) ≤ 4294967295
      split
      · omega
      · omega
  | nan => exact Nat.zero_le _
  | inf => exact le_refl _
  | ninf => exact Nat.zero_le _

/-- Every i32 cast result is within the i32 range. -/
theorem castI32_bounds (v : F) :
    -2147483648 ≤ castI32 v ∧ castI32 v ≤ 2147483647 := by
  cases v with
  | fin q =>
      constructor
      · show -2147483648 ≤ max (-2147483648) (min (ratTruncToward0 q) 2147483647)
        omega
      · show max (-2147483648) (min (ratTruncToward0 q) 2147483647) ≤ 2147483647
        omega
  | nan => exact ⟨by norm_num [castI32], by norm_num [castI32]⟩
  | inf => exact ⟨by norm_num [castI32], le_refl _⟩
  | ninf => exact ⟨le_refl _, by norm_num [castI32]⟩

/-- C1 counterexample: with nominal scale 2 the spec predicts a probe request of
200 = 100 * 2 pixels.  the primitive of screen1 succeeds exactly at (0,0,200,200)
with a 300 pixel wide buffer, so under the claim calibration would measure
300 / 200; but determine_actual_scaling requests (0,0,100,100), that request
fails, and the fallback 1.56 is returned instead. -/
theorem C1_counterexample :
    screen1.display_info.scale_factor = F.fin 2 ∧
    (test_size : ℚ) * 2 = 200 ∧
    screen1.capture_area 0 0 200 200 = some ⟨300, 300⟩ ∧
    determine_actual_scaling screen1 = F.fin (39 / 25) ∧
    F.fin (39 / 25) ≠ fdiv (F.fin (300 : ℚ)) (fmul (F.fin (test_size : ℚ)) (F.fin 2)) := by
  refine ⟨rfl, by norm_num [test_size], by with_unfolding_all rfl,
    by with_unfolding_all rfl, by with_unfolding_all decide⟩

/-- C1 (amended): the probe capture request issued by determine_actual_scaling
is the unscaled reference rectangle (0, 0, test_size, test_size) — the result
depends on the capture primitive only through that request, whose size is not
pre-multiplied by the nominal scale — and when that probe succeeds the result
is actual_width / (test_size * nominal_scale). -/
theorem C1_probe_request_and_formula :
    (∀ s t : Screen, s.display_info = t.display_info →
      s.capture_area 0 0 test_size test_size = t.capture_area 0 0 test_size test_size →
      determine_actual_scaling s = determine_actual_scaling t) ∧
    (∀ (s : Screen) (img : Image),
      s.capture_area 0 0 test_size test_size = some img →
      determine_actual_scaling s =
        fdiv (F.fin (img.width : ℚ))
          (fmul (F.fin (test_size : ℚ)) s.display_info.scale_factor)) := by
  constructor
  · intro s t hinfo hcap
    unfold determine_actual_scaling
    rw [hcap, hinfo]
  · intro s img hcap
    unfold determine_actual_scaling
    rw [hcap]

/-- C1 witness: the amended theorem applied to screen_probe, whose probe
capture succeeds with a 130 pixel wide buffer. -/
theorem C1_probe_request_and_formula_witness :
    determine_actual_scaling screen_probe =
      fdiv (F.fin ((130 : ℕ) : ℚ))
        (fmul (F.fin (test_size : ℚ)) screen_probe.display_info.scale_factor) :=
  C1_probe_request_and_formula.2 screen_probe ⟨130, 130⟩ rfl

/-- C2 counterexample: capture2 is rotated 90 degrees with total scale 2; the
logical request (0,0,100,50) is forwarded to the echo primitive as physical
(0,0,200,100) — width and height are not swapped (the swapped rectangle would
be (0,0,100,200)). -/
theorem C2_counterexample :
    capture2.screen.display_info.rotation = F.fin 90 ∧
    capture2.capture_scaled_area 0 0 100 50 = some ⟨200, 100⟩ ∧
    (some (Image.mk 200 100) : Option Image) ≠ some (Image.mk 100 200) := by
  refine ⟨rfl, by with_unfolding_all rfl, by decide⟩

/-- C2 (amended): capture_scaled_area never swaps the scaled width and height:
the rectangle it passes to the capture primitive is independent of
rotation_degrees, for every rotation value — in particular no swap occurs for
rotation 0 or 180, and none occurs for 90 or 270 either. -/
theorem C2_no_rotation_swap (d : DisplayInfo) (r r' : F)
    (cap : ℤ → ℤ → ℕ → ℕ → Option Image) (cfg : ScalingConfig)
    (lx ly : ℤ) (lw lh : ℕ) :
    (DisplayAwareCapture.mk { display_info := { d with rotation := r }, capture_area := cap }
      cfg).capture_scaled_area lx ly lw lh =
    (DisplayAwareCapture.mk { display_info := { d with rotation := r' }, capture_area := cap }
      cfg).capture_scaled_area lx ly lw lh := rfl

/-- C2 witness: the amended theorem applied at rotations 90 and 0 with the
echo oracle and total scale 3/2. -/
theorem C2_no_rotation_swap_witness :
    (DisplayAwareCapture.mk
      { display_info := { base_info with rotation := F.fin 90 }, capture_area := echo_cap }
      cfg6).capture_scaled_area 0 0 100 50 =
    (DisplayAwareCapture.mk
      { display_info := { base_info with rotation := F.fin 0 }, capture_area := echo_cap }
      cfg6).capture_scaled_area 0 0 100 50 :=
  C2_no_rotation_swap base_info (F.fin 90) (F.fin 0) echo_cap cfg6 0 0 100 50

/-- C3 counterexample: capture3 has total scale 1/2 and a primitive that
accepts every rectangle.  A logical width of 0 scales to 0, and logical width
1 truncates to 0 as well; in both cases capture_scaled_area still calls the
primitive and returns its buffer — no InvalidTransform error is raised before
the call. -/
theorem C3_counterexample :
    capture3.scaling.scale_dimension 0 = 0 ∧
    capture3.capture_scaled_area 0 0 0 100 = some ⟨7, 7⟩ ∧
    capture3.scaling.scale_dimension 1 = 0 ∧
    capture3.capture_scaled_area 0 0 1 1 = some ⟨7, 7⟩ ∧
    (some (Image.mk 7 7) : Option Image) ≠ none := by
  refine ⟨by with_unfolding_all rfl, by with_unfolding_all rfl,
    by with_unfolding_all rfl, by with_unfolding_all rfl, by decide⟩

/-- C3 (amended): there is no zero-dimension validation: even when the scaled
width truncates to 0, capture_scaled_area forwards the zero-width rectangle to
the capture primitive and returns whatever the primitive returns. -/
theorem C3_zero_dimension_forwarded (self : DisplayAwareCapture)
    (lx ly : ℤ) (lw lh : ℕ) (h : self.scaling.scale_dimension lw = 0) :
    self.capture_scaled_area lx ly lw lh =
      self.screen.capture_area (self.scaling.scale_coordinate lx)
        (self.scaling.scale_coordinate ly) 0 (self.scaling.scale_dimension lh) := by
  simp only [DisplayAwareCapture.capture_scaled_area]
  rw [h]

/-- C3 witness: the amended theorem applied to capture3 with logical width 1,
which truncates to physical width 0. -/
theorem C3_zero_dimension_forwarded_witness :
    capture3.capture_scaled_area 0 0 1 1 =
      capture3.screen.capture_area (capture3.scaling.scale_coordinate 0)
        (capture3.scaling.scale_coordinate 0) 0 (capture3.scaling.scale_dimension 1) :=
  C3_zero_dimension_forwarded capture3 0 0 1 1 (by with_unfolding_all rfl)

/-- C4: if the probe capture fails, determine_actual_scaling returns exactly
the fallback constant 1.56 = 39/25; the function is total and returns a plain
value, so no error is raised or propagated. -/
theorem C4_calibration_fallback (s : Screen)
    (h : s.capture_area 0 0 test_size test_size = none) :
    determine_actual_scaling s = F.fin (39 / 25) := by
  unfold determine_actual_scaling
  rw [h]

/-- C4 witness: the fallback theorem applied to a screen whose capture
primitive always fails. -/
theorem C4_calibration_fallback_witness :
    determine_actual_scaling screen_fail = F.fin (39 / 25) :=
  C4_calibration_fallback screen_fail rfl

/-- C5 counterexample: the probe capture of screen5 capture succeeds but returns a
zero-width buffer; the measured correction factor is then 0 and the
constructed configuration has total_scale = 0, which is not a positive value
— nothing clamps or falls back. -/
theorem C5_counterexample :
    screen5.capture_area 0 0 test_size test_size = some ⟨0, 54⟩ ∧
    (ScalingConfig.new screen5).total_scale = F.fin 0 ∧
    (F.fin 0).isPos = false := by
  refine ⟨rfl, by with_unfolding_all rfl, by decide⟩

/-- C5 (amended): total_scale always equals nominal_scale * correction_factor,
and it is a positive finite value whenever the nominal scale is positive
finite and the probe either fails or returns a buffer of positive width; a
degenerate zero-width probe buffer is not guarded against. -/
theorem C5_total_scale (s : Screen) (q : ℚ)
    (hq : s.display_info.scale_factor = F.fin q) (hqpos : 0 < q) :
    (ScalingConfig.new s).total_scale =
      fmul s.display_info.scale_factor (determine_actual_scaling s) ∧
    ((s.capture_area 0 0 test_size test_size = none ∨
      ∃ img, s.capture_area 0 0 test_size test_size = some img ∧ 0 < img.width) →
     ∃ r : ℚ, 0 < r ∧ (ScalingConfig.new s).total_scale = F.fin r) := by
  have htot : (ScalingConfig.new s).total_scale =
      fmul s.display_info.scale_factor (determine_actual_scaling s) := rfl
  refine ⟨htot, ?_⟩
  rintro (hnone | ⟨img, hcap, hwpos⟩)
  · have hd : determine_actual_scaling s = F.fin (39 / 25) := by
      unfold determine_actual_scaling
      rw [hnone]
    refine ⟨q * (39 / 25), by positivity, ?_⟩
    rw [htot, hq, hd]
    rfl
  · have h100 : (test_size : ℚ) * q ≠ 0 := by
      have : (0 : ℚ) < (test_size : ℚ) * q := by
        have ht : (0 : ℚ) < (test_size : ℚ) := by norm_num [test_size]
        exact mul_pos ht hqpos
      exact ne_of_gt this
    have hd : determine_actual_scaling s =
        F.fin ((img.width : ℚ) / ((test_size : ℚ) * q)) := by
      unfold determine_actual_scaling
      rw [hcap, hq]
      show (if (test_size : ℚ) * q = 0 then
          (if 0 < (img.width : ℚ) then F.inf else if (img.width : ℚ) < 0 then F.ninf else F.nan)
        else F.fin ((img.width : ℚ) / ((test_size : ℚ) * q))) = _
      rw [if_neg h100]
    refine ⟨q * ((img.width : ℚ) / ((test_size : ℚ) * q)), ?_, ?_⟩
    · have hw : (0 : ℚ) < (img.width : ℚ) := by exact_mod_cast hwpos
      have ht : (0 : ℚ) < (test_size : ℚ) * q := by
        have : (0 : ℚ) < (test_size : ℚ) := by norm_num [test_size]
        exact mul_pos this hqpos
      exact mul_pos hqpos (div_pos hw ht)
    · rw [htot, hq, hd]
      rfl

/-- C5 witness: the amended theorem applied to screen_fail, whose probe
fails, with nominal scale 1. -/
theorem C5_total_scale_witness :
    (ScalingConfig.new screen_fail).total_scale =
      fmul screen_fail.display_info.scale_factor (determine_actual_scaling screen_fail) ∧
    ∃ r : ℚ, 0 < r ∧ (ScalingConfig.new screen_fail).total_scale = F.fin r :=
  ⟨(C5_total_scale screen_fail 1 rfl one_pos).1,
   (C5_total_scale screen_fail 1 rfl one_pos).2 (Or.inl rfl)⟩

/-- C6 counterexample: with total scale 3/2, the coordinate -1 scales to
trunc(-3/2) = -1, but the floor rule the claim states gives
floor(-3/2) = -2: the conversion is truncation toward zero, not floor, on
negative coordinates. -/
theorem C6_counterexample :
    cfg6.total_scale = F.fin (3 / 2) ∧
    cfg6.scale_coordinate (-1) = -1 ∧
    (⌊((-1 : ℤ) : ℚ) * (3 / 2)⌋ : ℤ) = -2 ∧
    ((-1 : ℤ) ≠ (-2 : ℤ)) := by
  refine ⟨rfl, by with_unfolding_all rfl, by with_unfolding_all rfl, by decide⟩

/-- C6 (amended): all four outputs are computed with one uniform rule,
truncation toward zero saturated at the integer bounds: scale_coordinate
equals the truncation of x * total_scale whenever it is in i32 range,
scale_dimension agrees with scale_coordinate on their common domain, and
truncation toward zero coincides with floor exactly on nonnegative products
(so the floor wording of the claim is correct for nonnegative coordinates
and for dimensions, but not for negative coordinates). -/
theorem C6_uniform_truncation (cfg : ScalingConfig) (q : ℚ)
    (hq : cfg.total_scale = F.fin q) :
    (∀ x : ℤ, -2147483648 ≤ ratTruncToward0 ((x : ℚ) * q) →
      ratTruncToward0 ((x : ℚ) * q) ≤ 2147483647 →
      cfg.scale_coordinate x = ratTruncToward0 ((x : ℚ) * q)) ∧
    (∀ w : ℕ, 0 ≤ q → (w : ℚ) * q ≤ 2147483647 →
      (cfg.scale_dimension w : ℤ) = cfg.scale_coordinate (w : ℤ)) ∧
    (∀ x : ℤ, 0 ≤ (x : ℚ) * q → ratTruncToward0 ((x : ℚ) * q) = ⌊(x : ℚ) * q⌋) := by
  refine ⟨?_, ?_, ?_⟩
  · intro x h1 h2
    simp only [ScalingConfig.scale_coordinate, hq]
    show max (-2147483648) (min (ratTruncToward0 ((x : ℚ) * q)) 2147483647) = _
    omega
  · intro w h0 hle
    simp only [ScalingConfig.scale_dimension, ScalingConfig.scale_coordinate, hq]
    have hcast : (((w : ℤ) : ℚ)) = (w : ℚ) := by push_cast; rfl
    have hwq : 0 ≤ (w : ℚ) * q := mul_nonneg (by positivity) h0
    show ((if (w : ℚ) * q ≤ 0 then 0 else min (⌊(w : ℚ) * q⌋.toNat) 4294967295 : ℕ) : ℤ) =
      max (-2147483648) (min (ratTruncToward0 (((w : ℤ) : ℚ) * q)) 2147483647)
    rw [hcast]
    have htr : ratTruncToward0 ((w : ℚ) * q) = ⌊(w : ℚ) * q⌋ := by
      unfold ratTruncToward0
      rw [if_pos hwq]
    rw [htr]
    have hfl0 : 0 ≤ ⌊(w : ℚ) * q⌋ := Int.floor_nonneg.mpr hwq
    have hflle : ⌊(w : ℚ) * q⌋ ≤ 2147483647 := by
      have := Int.floor_le_floor hle
      simpa using this
    by_cases hz : (w : ℚ) * q ≤ 0
    · have : ⌊(w : ℚ) * q⌋ = 0 := by
        have : (w : ℚ) * q = 0 := le_antisymm hz hwq
        rw [this]
        exact Int.floor_zero
      rw [if_pos hz, this]
      omega
    · rw [if_neg hz]
      omega
  · intro x h
    unfold ratTruncToward0
    rw [if_pos h]

/-- C6 witness: the amended theorem applied to cfg6 (total scale 3/2) at
coordinate -1 and at dimension 100. -/
theorem C6_uniform_truncation_witness :
    cfg6.scale_coordinate (-1) = ratTruncToward0 (((-1 : ℤ) : ℚ) * (3 / 2)) ∧
    (cfg6.scale_dimension 100 : ℤ) = cfg6.scale_coordinate ((100 : ℕ) : ℤ) :=
  ⟨(C6_uniform_truncation cfg6 (3 / 2) rfl).1 (-1)
      (by with_unfolding_all decide) (by with_unfolding_all decide),
   (C6_uniform_truncation cfg6 (3 / 2) rfl).2.1 100 (by norm_num) (by norm_num)⟩

/-- C7: when total_scale is a finite value at least 1, scale_dimension never
shrinks: the physical width is at least the positive logical width w (stated
for w in the u32 range of the source type). -/
theorem C7_no_shrink (cfg : ScalingConfig) (w : ℕ) (q : ℚ)
    (hw : 0 < w) (hw32 : w ≤ 4294967295)
    (hq : cfg.total_scale = F.fin q) (h1 : 1 ≤ q) :
    w ≤ cfg.scale_dimension w := by
  simp only [ScalingConfig.scale_dimension, hq]
  have hwq : (0 : ℚ) < (w : ℚ) := by exact_mod_cast hw
  have hpos : (0 : ℚ) < (w : ℚ) * q := mul_pos hwq (lt_of_lt_of_le one_pos h1)
  have h2 : (w : ℚ) ≤ (w : ℚ) * q := le_mul_of_one_le_right (le_of_lt hwq) h1
  have h3 : (w : ℤ) ≤ ⌊(w : ℚ) * q⌋ := by
    rw [Int.le_floor]
    push_cast
    exact h2
  show w ≤ (if (w : ℚ) * q ≤ 0 then 0 else min (⌊(w : ℚ) * q⌋.toNat) 4294967295)
  rw [if_neg (not_le.mpr hpos)]
  omega

/-- C7 witness: with total scale 3/2, the logical width 100 scales to 150,
which is at least 100. -/
theorem C7_no_shrink_witness : 100 ≤ cfg6.scale_dimension 100 :=
  C7_no_shrink cfg6 100 (3 / 2) (by norm_num) (by norm_num) rfl (by norm_num)

/-- C8: the artifact name of concrete scenario 5 — prefix shot, logical size
100, nominal scale 1.25, total scale 1.95, rotation 90 — encodes in order the
prefix, 100x100, the nominal percentage 125, the total percentage 195 and the
rotation 90, and contains each of the literal substrings the claim lists. -/
theorem C8_filename_format :
    capture8.screenshot_filename "shot" 100 "target" =
      "target/shot_100x100_dpi125_scale195_rot90.png" ∧
    (∃ a b : String, a ++ "100x100" ++ b = capture8.screenshot_filename "shot" 100 "target") ∧
    (∃ a b : String, a ++ "125" ++ b = capture8.screenshot_filename "shot" 100 "target") ∧
    (∃ a b : String, a ++ "195" ++ b = capture8.screenshot_filename "shot" 100 "target") ∧
    (∃ a b : String, a ++ "90" ++ b = capture8.screenshot_filename "shot" 100 "target") := by
  refine ⟨by with_unfolding_all rfl,
    ⟨"target/shot_", "_dpi125_scale195_rot90.png", by with_unfolding_all rfl⟩,
    ⟨"target/shot_100x100_dpi", "_scale195_rot90.png", by with_unfolding_all rfl⟩,
    ⟨"target/shot_100x100_dpi125_scale", "_rot90.png", by with_unfolding_all rfl⟩,
    ⟨"target/shot_100x100_dpi125_scale195_rot", ".png", by with_unfolding_all rfl⟩⟩

/-- C9 counterexample: capture8 and capture9b differ only in the nominal
scale factor (1.25 versus 1.251) yet produce identical artifact names,
because the scale is truncated to an integer percentage in the name. -/
theorem C9_counterexample :
    capture8.screen.display_info.scale_factor ≠ capture9b.screen.display_info.scale_factor ∧
    capture8.scaling.total_scale = capture9b.scaling.total_scale ∧
    capture8.screen.display_info.rotation = capture9b.screen.display_info.rotation ∧
    capture8.screenshot_filename "shot" 100 "target" =
      capture9b.screenshot_filename "shot" 100 "target" := by
  refine ⟨by with_unfolding_all decide, rfl, rfl, by with_unfolding_all rfl⟩

/-- C9 (amended): the artifact name is a pure function of the five inputs —
any two captures agreeing on scale factor, rotation and total scale (with the
same prefix, size and directory) yield identical names, whatever their other
state — and changing the prefix alone always changes the name; but changing
only the nominal scale need not change it, since scales are encoded as
truncated integer percentages. -/
theorem C9_name_determinism (c c' : DisplayAwareCapture) (p p' : String)
    (n : ℕ) (d : String) :
    ((c.screen.display_info.scale_factor = c'.screen.display_info.scale_factor) →
     (c.screen.display_info.rotation = c'.screen.display_info.rotation) →
     (c.scaling.total_scale = c'.scaling.total_scale) →
     c.screenshot_filename p n d = c'.screenshot_filename p n d) ∧
    (p ≠ p' → c.screenshot_filename p n d ≠ c.screenshot_filename p' n d) := by
  constructor
  · intro h1 h2 h3
    simp only [DisplayAwareCapture.screenshot_filename, h1, h2, h3]
  · intro hne heq
    apply hne
    have h := congrArg String.data heq
    simp only [DisplayAwareCapture.screenshot_filename, String.data_append,
      List.append_assoc] at h
    have h2 := List.append_cancel_left h
    have h3 := List.append_cancel_left h2
    have h4 := List.append_cancel_right h3
    cases p
    cases p'
    exact congrArg String.mk h4

/-- C9 witness: the amended theorem applied to capture8 twice (purity) and to
two distinct prefixes (prefix injectivity). -/
theorem C9_name_determinism_witness :
    capture8.screenshot_filename "shot" 100 "target" =
      capture8.screenshot_filename "shot" 100 "target" ∧
    capture8.screenshot_filename "a" 100 "target" ≠
      capture8.screenshot_filename "b" 100 "target" :=
  ⟨(C9_name_determinism capture8 capture8 "shot" "shot" 100 "target").1 rfl rfl rfl,
   (C9_name_determinism capture8 capture8 "a" "b" 100 "target").2 (by decide)⟩

/-- C10: scale_dimension and scale_coordinate are total functions whose
float-to-integer conversions saturate: scale_dimension returns 0 whenever
logical_size * total_scale is not a positive number (nonpositive finite, NaN,
or minus infinity), and both outputs always lie within the bounds of their
integer types, for every total_scale value. -/
theorem C10_total_saturating (cfg : ScalingConfig) (w : ℕ) (x : ℤ) :
    ((fmul (F.fin (w : ℚ)) cfg.total_scale).isPos = false →
      cfg.scale_dimension w = 0) ∧
    cfg.scale_dimension w ≤ 4294967295 ∧
    -2147483648 ≤ cfg.scale_coordinate x ∧
    cfg.scale_coordinate x ≤ 2147483647 := by
  refine ⟨?_, ?_, (castI32_bounds _).1, (castI32_bounds _).2⟩
  · simp only [ScalingConfig.scale_dimension]
    cases htot : cfg.total_scale with
    | fin q =>
        intro hpos
        have hnp : ¬ (0 < (w : ℚ) * q) := by
          simpa [fmul, F.isPos] using hpos
        show (if (w : ℚ) * q ≤ 0 then 0 else min (⌊(w : ℚ) * q⌋.toNat) 4294967295) = 0
        rw [if_pos (not_lt.mp hnp)]
    | nan => intro _; rfl
    | inf =>
        intro hpos
        rcases Nat.eq_zero_or_pos w with hw | hw
        · subst hw
          show castU32 (fmul (F.fin ((0 : ℕ) : ℚ)) F.inf) = 0
          norm_num [fmul, castU32]
        · exfalso
          have hq : (0 : ℚ) < (w : ℚ) := by exact_mod_cast hw
          have : (fmul (F.fin (w : ℚ)) F.inf).isPos = true := by
            simp [fmul, F.isPos, hq]
          rw [this] at hpos
          cases hpos
    | ninf =>
        intro _
        rcases Nat.eq_zero_or_pos w with hw | hw
        · subst hw
          show castU32 (fmul (F.fin ((0 : ℕ) : ℚ)) F.ninf) = 0
          norm_num [fmul, castU32]
        · have hq : (0 : ℚ) < (w : ℚ) := by exact_mod_cast hw
          show castU32 (fmul (F.fin (w : ℚ)) F.ninf) = 0
          simp [fmul, castU32, hq]
  · exact castU32_le _

/-- C10 witness: the theorem applied to a configuration whose total scale is
NaN, at logical size 5 and coordinate 7: the scaled dimension is 0 and both
outputs are in range. -/
theorem C10_total_saturating_witness :
    cfg10.scale_dimension 5 = 0 ∧ cfg10.scale_dimension 5 ≤ 4294967295 ∧
    -2147483648 ≤ cfg10.scale_coordinate 7 ∧ cfg10.scale_coordinate 7 ≤ 2147483647 :=
  ⟨(C10_total_saturating cfg10 5 7).1 rfl,
   (C10_total_saturating cfg10 5 7).2.1,
   (C10_total_saturating cfg10 5 7).2.2.1,
   (C10_total_saturating cfg10 5 7).2.2.2⟩

end SnapScale
